import Mathlib

/-!
Shallow embedding of `ssh_dashboard.py` (FlexPort Claude progress dashboard).

The external world that the Python code queries (filesystem listings,
`os.walk` output, file modification times, `subprocess.run` results for the
three `git` sub-calls, `ps aux` output, `os.getloadavg`, log-file contents)
is modelled as an explicit environment record.  Each Python function is
translated into a pure Lean function over that environment.  A successful
external call carries the value the call returned; a raising call is
modelled as `Except.error msg` (for calls whose exception message `str(e)`
the code observes) or `Option.none` (for `subprocess.run` raising, where
the code only catches and discards the exception).

Python string operations used by the code (`str.strip`, `str.split('\n')`,
`str.endswith`, `str.lower`, `in` substring test, `str.replace`) are
modelled over `List Char` so that every definition evaluates by kernel
reduction.
-/

namespace SSHDashboard

/-- Python whitespace characters recognised by `str.strip` (ASCII range). -/
def isPySpace (c : Char) : Bool :=
  c = ' ' || c = '\t' || c = '\n' || c = '\r' || c = Char.ofNat 11 || c = Char.ofNat 12

/-- `str.strip()`: drop whitespace at both ends. -/
def stripChars (l : List Char) : List Char :=
  ((l.dropWhile isPySpace).reverse.dropWhile isPySpace).reverse

/-- `str.strip()` on strings. -/
def pyStrip (s : String) : String := ⟨stripChars s.data⟩

/-- Python `s.split('\n')`: split on every newline, keeping empty segments.
`splitOnNl [] = [[]]`, matching `''.split('\n') == ['']`. -/
def splitOnNl : List Char → List (List Char)
  | [] => [[]]
  | c :: rest =>
    match splitOnNl rest with
    | [] => [[]]
    | l :: ls => if c = '\n' then [] :: l :: ls else (c :: l) :: ls

/-- Python `sub in s` substring test (`containsSub sub s`). -/
def containsSub (sub : List Char) : List Char → Bool
  | [] => sub.isPrefixOf ([] : List Char)
  | c :: rest => sub.isPrefixOf (c :: rest) || containsSub sub rest

/-- Python `str.lower` on one character (ASCII case mapping, which is all the
code relies on: the needle searched for is the ASCII word claude). -/
def lowerChar (c : Char) : Char :=
  if 'A' ≤ c ∧ c ≤ 'Z' then Char.ofNat (c.toNat + 32) else c

/-- Python `str.lower` over the characters of a line. -/
def lowerChars (l : List Char) : List Char := l.map lowerChar

/-- Python `str.endswith`. -/
def endsWithPy (s suffixStr : String) : Bool :=
  suffixStr.data.isSuffixOf s.data

/-- Fuel-indexed worker for Python `str.replace`: replace each left-most,
non-overlapping occurrence of `pat` by `rep`.  Fuel equal to the length of
the subject suffices because every step consumes at least one character. -/
def replaceCharsAux (pat rep : List Char) : Nat → List Char → List Char
  | 0, l => l
  | _ + 1, [] => []
  | fuel + 1, c :: rest =>
    if pat ≠ [] ∧ pat.isPrefixOf (c :: rest) then
      rep ++ replaceCharsAux pat rep fuel (rest.drop (pat.length - 1))
    else
      c :: replaceCharsAux pat rep fuel rest

/-- Python `s.replace(pat, rep)` for the nonempty patterns the code uses. -/
def pyReplace (s pat rep : String) : String :=
  ⟨replaceCharsAux pat.data rep.data s.data.length s.data⟩

/-! ### Configuration constants (lines 15-18 of `ssh_dashboard.py`) -/

def FLEXPORT_DIR : String := "/Users/jfuginay/Documents/dev/Flexport"

def IOS_DIR : String := FLEXPORT_DIR ++ "/FlexPort iOS"

def ANDROID_DIR : String := FLEXPORT_DIR ++ "/FlexPort Android"

def LOGS_DIR : String := FLEXPORT_DIR ++ "/terminal_logs"

/-! ### Environment model -/

/-- State of the terminal-log directory as `get_terminal_logs` observes it:
whether `os.path.exists(LOGS_DIR)` holds, the `os.listdir(LOGS_DIR)` result,
and for each path the outcome of `open(path).readlines()` — `Except.ok`
with the list of lines, or `Except.error` carrying `str(e)` of the raised
exception. -/
structure LogDirState where
  dir_exists : Bool
  listing : List String
  read_file : String → Except String (List String)

/-- One `(root, dirs, files)` triple yielded by `os.walk` (the code never
reads `dirs`, so it is omitted). -/
structure WalkEntry where
  root : String
  files : List String
deriving DecidableEq

/-- State of one project directory: the `os.listdir` outcome (`Except.error`
carries `str(e)` when the directory cannot be listed), the `os.walk`
sequence, and `os.path.getmtime` for the files the walk yields. -/
structure DirState where
  listing : Except String (List String)
  walk : List WalkEntry
  mtime : String → Nat

/-- Result of one `subprocess.run` git sub-call that did not raise. -/
structure CmdResult where
  returncode : Int
  stdout : String
deriving DecidableEq

/-- Environment of `get_git_info` for one directory: whether the `.git`
marker exists, and the three sub-call outcomes in program order (branch,
status, log).  `none` models the `subprocess.run` call itself raising
(e.g. the git tool not found). -/
structure GitEnv where
  git_dir_exists : Bool
  branch_result : Option CmdResult
  status_result : Option CmdResult
  log_result : Option CmdResult
deriving DecidableEq

/-- Environment of the system-stats block: the `ps aux` stdout (or `str(e)`
if `subprocess.run` raised) and the `os.getloadavg()` triple (or `str(e)`
if it raised). -/
structure SysEnv where
  ps_result : Except String String
  loadavg : Except String (Float × Float × Float)

/-- Whole-world environment for one snapshot build. -/
structure Env where
  ios_dir : DirState
  android_dir : DirState
  ios_git : GitEnv
  android_git : GitEnv
  sys : SysEnv
  logs : LogDirState

/-! ### `get_terminal_logs` (lines 20-36) -/

/-- `get_terminal_logs`: for each `.log` file of the log directory, the last
50 lines (all lines when the file is shorter), or a single synthetic line
`Error reading log: ...` when reading raised.  A missing log directory
yields the empty mapping.  The Python dict is modelled as an association
list in insertion order. -/
def get_terminal_logs (env : LogDirState) : List (String × List String) :=
  if env.dir_exists then
    (env.listing.filter (fun f => endsWithPy f ".log")).map (fun log_file =>
      match env.read_file (LOGS_DIR ++ "/" ++ log_file) with
      | .ok lines =>
        (log_file, if lines.length > 50 then lines.drop (lines.length - 50) else lines)
      | .error e => (log_file, ["Error reading log: " ++ e]))
  else []

/-! ### `get_last_modified` (lines 79-101) -/

/-- The value returned for the most recently modified matching file: the
path with the directory prefix removed, and the modification time (the
code formats it with `datetime.fromtimestamp(...).isoformat()`; the
timestamp is kept as the raw `Nat` here). -/
structure LastModified where
  file : String
  time : Nat
deriving DecidableEq

/-- `get_last_modified`: walk the tree, keep the strictly greatest mtime
among files matching one of the extensions, starting from `latest_time = 0`
and `latest_file = None`; return `none` when no matching file was found. -/
def get_last_modified (walk : List WalkEntry) (mtime : String → Nat)
    (directory : String) (extensions : List String) : Option LastModified :=
  let acc := walk.foldl (fun acc entry =>
    entry.files.foldl (fun acc file =>
      if extensions.any (fun ext => endsWithPy file ext) then
        let filepath := entry.root ++ "/" ++ file
        let m := mtime filepath
        if m > acc.1 then (m, some filepath) else acc
      else acc) acc) ((0 : Nat), (none : Option String))
  match acc.2 with
  | some latest_file => some ⟨pyReplace latest_file directory "", acc.1⟩
  | none => none

/-! ### `get_git_info` (lines 103-129) -/

/-- Result of `get_git_info`: the populated dict
`{branch, uncommitted_changes, last_commit}`, or the sentinel dict
`{"status": "No git repository"}`. -/
inductive GitInfo where
  | info (branch : String) (uncommitted_changes : Nat) (last_commit : String)
  | noRepo
deriving DecidableEq

/-- Line 115: `len(result.stdout.strip().split('\n')) if result.stdout.strip() else 0`. -/
def changes_of (stdout : String) : Nat :=
  if pyStrip stdout ≠ "" then (splitOnNl (pyStrip stdout).data).length else 0

/-- `get_git_info`: sentinel when the `.git` marker is absent; otherwise the
three sub-calls in order.  A raising sub-call (`none`) lands in the
`except Exception: pass` block, so the function falls through to the
sentinel return value.  Branch and last-commit check `returncode`; the
status call's exit code is never inspected. -/
def get_git_info (env : GitEnv) : GitInfo :=
  if env.git_dir_exists then
    match env.branch_result with
    | none => .noRepo
    | some r1 =>
      let branch := if r1.returncode = 0 then pyStrip r1.stdout else "unknown"
      match env.status_result with
      | none => .noRepo
      | some r2 =>
        let changes := changes_of r2.stdout
        match env.log_result with
        | none => .noRepo
        | some r3 =>
          let last_commit := if r3.returncode = 0 then pyStrip r3.stdout else "No commits"
          .info branch changes last_commit
  else .noRepo

/-! ### `get_project_stats` (lines 38-77) -/

/-- The `stats["ios"]` sub-dict.  Python builds it key by key inside a
`try` block, so each key is modelled as an `Option`: `none` means the key
was never assigned.  `last_modified` is doubly optional because the code
stores `get_last_modified`'s possibly-`None` result under the key. -/
structure IosSection where
  swift_files : Option Nat
  last_modified : Option (Option LastModified)
  git_status : Option GitInfo
  error : Option String
deriving DecidableEq

/-- The `stats["android"]` sub-dict, with the same `Option`-per-key model. -/
structure AndroidSection where
  kotlin_files : Option Nat
  java_files : Option Nat
  last_modified : Option (Option LastModified)
  git_status : Option GitInfo
  error : Option String
deriving DecidableEq

/-- The `stats["system"]` sub-dict. -/
structure SystemSection where
  claude_processes : Option Nat
  load_avg : Option (Float × Float × Float)
  error : Option String

/-- Lines 49-55: the iOS `try` block.  `os.listdir(IOS_DIR)` is the first
statement and the only raising operation of the block
(`get_last_modified` and `get_git_info` swallow their own exceptions), so
a listing failure leaves every data key unassigned and sets only
`error = str(e)`. -/
def build_ios (dir : DirState) (git : GitEnv) : IosSection :=
  match dir.listing with
  | .error e => { swift_files := none, last_modified := none, git_status := none, error := some e }
  | .ok files =>
    let ios_swift_count := (files.filter (fun f => endsWithPy f ".swift")).length
    { swift_files := some ios_swift_count
      last_modified := some (get_last_modified dir.walk dir.mtime IOS_DIR [".swift"])
      git_status := some (get_git_info git)
      error := none }

/-- Lines 58-66: the Android `try` block (two shallow counts, `.kt` and
`.java`, over the same listing). -/
def build_android (dir : DirState) (git : GitEnv) : AndroidSection :=
  match dir.listing with
  | .error e =>
    { kotlin_files := none, java_files := none, last_modified := none
      git_status := none, error := some e }
  | .ok files =>
    let android_kt_count := (files.filter (fun f => endsWithPy f ".kt")).length
    let android_java_count := (files.filter (fun f => endsWithPy f ".java")).length
    { kotlin_files := some android_kt_count
      java_files := some android_java_count
      last_modified := some (get_last_modified dir.walk dir.mtime ANDROID_DIR [".kt", ".java"])
      git_status := some (get_git_info git)
      error := none }

/-- Lines 69-75: the system `try` block.  `claude_processes` is assigned
from the `ps aux` output first; `os.getloadavg()` runs second, so if it
raises after the `ps` call succeeded, the already-assigned
`claude_processes` key survives next to the `error` key. -/
def build_system (sys : SysEnv) : SystemSection :=
  match sys.ps_result with
  | .error e => { claude_processes := none, load_avg := none, error := some e }
  | .ok out =>
    let claude_processes :=
      ((splitOnNl out.data).filter (fun line => containsSub "claude".data (lowerChars line))).length
    match sys.loadavg with
    | .error e => { claude_processes := some claude_processes, load_avg := none, error := some e }
    | .ok la => { claude_processes := some claude_processes, load_avg := some la, error := none }

/-- The top-level snapshot dict of `get_project_stats`. -/
structure Snapshot where
  timestamp : String
  ios : IosSection
  android : AndroidSection
  system : SystemSection
  terminal_logs : List (String × List String)

/-- `get_project_stats`: the snapshot assembled from the four independent
blocks.  `now` stands for `datetime.now().isoformat()`, the only
non-environment input. -/
def get_project_stats (env : Env) (now : String) : Snapshot :=
  { timestamp := now
    ios := build_ios env.ios_dir env.ios_git
    android := build_android env.android_dir env.android_git
    system := build_system env.sys
    terminal_logs := get_terminal_logs env.logs }

/-! ### HTTP handlers (lines 291-311) -/

/-- `DashboardHandler.serve_stats` (lines 291-296): one fresh
`get_project_stats` run serialised as the response body. -/
def serve_stats (env : Env) (now : String) : Snapshot :=
  get_project_stats env now

/-- `DashboardHandler.serve_terminal_logs` (lines 306-311): one fresh
`get_terminal_logs` run over the shared log directory. -/
def serve_terminal_logs (env : Env) : List (String × List String) :=
  get_terminal_logs env.logs

/-! ### Helper lemmas -/

theorem splitOnNl_ne_nil (l : List Char) : splitOnNl l ≠ [] := by
  cases l with
  | nil => simp [splitOnNl]
  | cons c rest =>
    simp only [splitOnNl]
    split
    · simp
    · split <;> simp

theorem splitOnNl_length (l : List Char) : (splitOnNl l).length = l.count '\n' + 1 := by
  induction l with
  | nil => simp [splitOnNl]
  | cons c rest ih =>
    simp only [splitOnNl]
    split
    · rename_i heq
      exact absurd heq (splitOnNl_ne_nil rest)
    · rename_i a as heq
      rw [heq] at ih
      by_cases hc : c = '\n'
      · simp only [if_pos hc, List.length_cons, List.count_cons, hc]
        simp only [List.length_cons] at ih
        simp
        omega
      · simp only [if_neg hc, List.length_cons, List.count_cons] at *
        simp [hc]
        omega

/-! ### Claim theorems -/

/-- Concrete log directory for the C2 witness: a five-line log, a zero-line
log, and one non-log file. -/
def logDirC2 : LogDirState :=
  { dir_exists := true
    listing := ["build.log", "empty.log", "notes.txt"]
    read_file := fun p =>
      if p = LOGS_DIR ++ "/empty.log" then .ok []
      else .ok ["line1\n", "line2\n", "line3\n", "line4\n", "line5\n"] }

/-- C2: for every log file of the log directory, `get_terminal_logs`
returns at most 50 lines — exactly the final 50 lines of the file, or all
lines when the file has at most 50; a 0-line file yields the empty
sequence, and its entry is still present in the returned mapping. -/
theorem C2_log_tailer_bound (env : LogDirState) :
    (∀ p ∈ get_terminal_logs env, p.2.length ≤ 50) ∧
    (∀ f lines, env.dir_exists = true → f ∈ env.listing → endsWithPy f ".log" = true →
      env.read_file (LOGS_DIR ++ "/" ++ f) = .ok lines →
      ((f, lines.drop (lines.length - 50)) ∈ get_terminal_logs env ∧
       (lines.length ≤ 50 → (f, lines) ∈ get_terminal_logs env) ∧
       (lines = [] → (f, ([] : List String)) ∈ get_terminal_logs env))) := by
  constructor
  · intro p hp
    unfold get_terminal_logs at hp
    split at hp
    · rcases List.mem_map.mp hp with ⟨f, hf, rfl⟩
      cases hr : env.read_file (LOGS_DIR ++ "/" ++ f) with
      | ok lines =>
        simp only [hr]
        split
        · simpa using by omega
        · simpa using by omega
      | error e => simp [hr]
    · simp at hp
  · intro f lines hex hmem hsuf hread
    have hfil : f ∈ env.listing.filter (fun g => endsWithPy g ".log") :=
      List.mem_filter.mpr ⟨hmem, hsuf⟩
    have hmain : (f, lines.drop (lines.length - 50)) ∈ get_terminal_logs env := by
      unfold get_terminal_logs
      simp only [hex, if_true]
      refine List.mem_map.mpr ⟨f, hfil, ?_⟩
      rw [hread]
      by_cases h50 : lines.length > 50
      · simp [h50]
      · have hz : lines.length - 50 = 0 := by omega
        simp [h50, hz]
    refine ⟨hmain, ?_, ?_⟩
    · intro hle
      have hz : lines.length - 50 = 0 := by omega
      rw [hz, List.drop_zero] at hmain
      exact hmain
    · intro hnil
      subst hnil
      simpa using hmain

/-- C2 witness: on `logDirC2`, every entry has at most 50 lines, the
five-line log is returned whole, and the zero-line log is present with the
empty sequence. -/
theorem C2_log_tailer_bound_witness :
    (∀ p ∈ get_terminal_logs logDirC2, p.2.length ≤ 50) ∧
    ("build.log", ["line1\n", "line2\n", "line3\n", "line4\n", "line5\n"]) ∈
      get_terminal_logs logDirC2 ∧
    ("empty.log", ([] : List String)) ∈ get_terminal_logs logDirC2 := by
  have h := C2_log_tailer_bound logDirC2
  refine ⟨h.1, ?_, ?_⟩
  · exact (h.2 "build.log" ["line1\n", "line2\n", "line3\n", "line4\n", "line5\n"]
      rfl (by decide) (by decide) rfl).2.1 (by decide)
  · exact (h.2 "empty.log" [] rfl (by decide) (by decide) rfl).2.2 rfl

/-- Concrete project directory for C3: shallow entries `a.swift`,
`b.swift`, `sub`; the recursive walk additionally reaches `sub/c.swift`,
which has the strictly greatest modification time. -/
def iosDirC3 : DirState :=
  { listing := .ok ["a.swift", "b.swift", "sub"]
    walk := [⟨IOS_DIR, ["a.swift", "b.swift"]⟩, ⟨IOS_DIR ++ "/sub", ["c.swift"]⟩]
    mtime := fun p =>
      if p = IOS_DIR ++ "/sub/c.swift" then 300
      else if p = IOS_DIR ++ "/a.swift" then 100 else 200 }

/-- Git environment with no repository marker, used alongside `iosDirC3`. -/
def gitAbsent : GitEnv := ⟨false, none, none, none⟩

/-- C3: the file count is shallow while the last-modified search is
recursive — for a directory with top-level `a.swift`, `b.swift` and nested
`sub/c.swift` most recently modified, the probe reports `swift_files = 2`
and `last_modified.file = "/sub/c.swift"` (root prefix stripped). -/
theorem C3_shallow_count_recursive_recency :
    (build_ios iosDirC3 gitAbsent).swift_files = some 2 ∧
    (build_ios iosDirC3 gitAbsent).last_modified = some (some ⟨"/sub/c.swift", 300⟩) := by
  decide

/-- Git environment whose porcelain status output contains an interior
blank line, used for C5. -/
def gitEnvC5 : GitEnv :=
  { git_dir_exists := true
    branch_result := some ⟨0, "main\n"⟩
    status_result := some ⟨0, " M a.txt\n\n?? b.txt\n"⟩
    log_result := some ⟨0, "abc123 init\n"⟩ }

/-- C5 counterexample: on a status output with an interior blank line the
code reports `uncommitted_changes = 3`, while the number of non-empty
lines of that output is 2 — so `uncommitted_changes` is not the number of
non-empty lines. -/
theorem C5_nonempty_lines_counterexample :
    get_git_info gitEnvC5 = .info "main" 3 "abc123 init" ∧
    ((splitOnNl (" M a.txt\n\n?? b.txt\n").data).filter (fun l => l ≠ [])).length = 2 := by
  decide

/-- C5 amended: when the probe completes, `uncommitted_changes` is the
number of newline-separated segments of the whitespace-stripped status
output — one more than the number of newlines it retains, counting interior
empty lines — and 0 when the output is empty or all whitespace. -/
theorem C5_uncommitted_newline_count (env : GitEnv) (r1 r2 r3 : CmdResult)
    (h : env.git_dir_exists = true) (h1 : env.branch_result = some r1)
    (h2 : env.status_result = some r2) (h3 : env.log_result = some r3) :
    ∃ b c, get_git_info env =
      .info b (if pyStrip r2.stdout = "" then 0 else (pyStrip r2.stdout).data.count '\n' + 1) c := by
  refine ⟨if r1.returncode = 0 then pyStrip r1.stdout else "unknown",
          if r3.returncode = 0 then pyStrip r3.stdout else "No commits", ?_⟩
  unfold get_git_info
  rw [h, h1, h2, h3]
  simp only [if_true]
  congr 1
  by_cases hs : pyStrip r2.stdout = ""
  · simp [changes_of, hs]
  · simp [changes_of, hs, splitOnNl_length]

/-- C5 witness: the amended count evaluated on `gitEnvC5`. -/
theorem C5_uncommitted_newline_count_witness :
    ∃ b c, get_git_info gitEnvC5 =
      .info b (if pyStrip (" M a.txt\n\n?? b.txt\n" : String) = "" then 0
               else (pyStrip (" M a.txt\n\n?? b.txt\n" : String)).data.count '\n' + 1) c :=
  C5_uncommitted_newline_count gitEnvC5 ⟨0, "main\n"⟩ ⟨0, " M a.txt\n\n?? b.txt\n"⟩
    ⟨0, "abc123 init\n"⟩ rfl rfl rfl rfl

/-- Git environment for C4: the `.git` marker exists, but the very first
git sub-call raises (the tool is not found). -/
def gitEnvC4 : GitEnv :=
  { git_dir_exists := true, branch_result := none, status_result := none, log_result := none }

/-- C4 counterexample: with the `.git` marker present but the first git
sub-call raising (tool not found), `get_git_info` returns exactly the
"no repository" sentinel — so a catastrophic failure does not degrade the
probe to an ErrorNote, contrary to the claim. -/
theorem C4_catastrophic_counterexample : get_git_info gitEnvC4 = .noRepo := by decide

/-- C4 amended: a catastrophic failure (any of the three sub-calls
raising) is caught by the blanket handler and degrades the whole probe to
the "no repository" sentinel — the same value returned for a directory
without the marker; no ErrorNote and no partial VcsStatus is produced. -/
theorem C4_catastrophic_sentinel (env : GitEnv)
    (hfail : env.branch_result = none ∨ env.status_result = none ∨ env.log_result = none) :
    get_git_info env = .noRepo := by
  unfold get_git_info
  by_cases hd : env.git_dir_exists
  · simp only [hd, if_true]
    cases hb : env.branch_result with
    | none => rfl
    | some r1 =>
      cases hs : env.status_result with
      | none => rfl
      | some r2 =>
        cases hl : env.log_result with
        | none => rfl
        | some r3 =>
          exfalso
          rcases hfail with h | h | h <;> simp_all
  · simp [hd]

/-- C4 witness: the amended statement applied to `gitEnvC4`. -/
theorem C4_catastrophic_sentinel_witness : get_git_info gitEnvC4 = .noRepo :=
  C4_catastrophic_sentinel gitEnvC4 (Or.inl rfl)

/-- Git environment for C6: the status sub-call exits non-zero with empty
output while branch and last-commit succeed. -/
def gitEnvC6fail : GitEnv :=
  { git_dir_exists := true
    branch_result := some ⟨0, "main\n"⟩
    status_result := some ⟨1, ""⟩
    log_result := some ⟨0, "abc123 init\n"⟩ }

/-- Fully successful variant of `gitEnvC6fail` over a clean tree. -/
def gitEnvC6clean : GitEnv :=
  { git_dir_exists := true
    branch_result := some ⟨0, "main\n"⟩
    status_result := some ⟨0, ""⟩
    log_result := some ⟨0, "abc123 init\n"⟩ }

/-- C6 counterexample: when the working-tree status sub-call fails with
exit code 1 (and empty output) while the other two sub-calls succeed, the
probe returns `uncommitted_changes = 0` — exactly the value of a fully
successful probe of a clean tree — so that field is not degraded to an
"unknown" placeholder. -/
theorem C6_status_no_placeholder_counterexample :
    get_git_info gitEnvC6fail = .info "main" 0 "abc123 init" ∧
    get_git_info gitEnvC6fail = get_git_info gitEnvC6clean := by decide

/-- C6 amended: a failing branch sub-call degrades only `branch` to
"unknown" and a failing last-commit sub-call degrades only `last_commit`
to "No commits", in each case leaving the other fields at their successful
values and never failing the probe; the status sub-call's exit code is
ignored entirely, so a failing status call yields `uncommitted_changes`
computed from its (possibly empty) output rather than a placeholder. -/
theorem C6_subcall_isolation (env : GitEnv) (r1 r2 r3 : CmdResult)
    (h : env.git_dir_exists = true) (h1 : env.branch_result = some r1)
    (h2 : env.status_result = some r2) (h3 : env.log_result = some r3) :
    (r1.returncode ≠ 0 → r3.returncode = 0 →
      get_git_info env = .info "unknown" (changes_of r2.stdout) (pyStrip r3.stdout)) ∧
    (r1.returncode = 0 → r3.returncode ≠ 0 →
      get_git_info env = .info (pyStrip r1.stdout) (changes_of r2.stdout) "No commits") ∧
    (∀ rc : Int, get_git_info env =
      get_git_info { env with status_result := some ⟨rc, r2.stdout⟩ }) := by
  refine ⟨?_, ?_, ?_⟩
  · intro hb hl
    unfold get_git_info
    simp [h, h1, h2, h3, hb, hl]
  · intro hb hl
    unfold get_git_info
    simp [h, h1, h2, h3, hb, hl]
  · intro rc
    unfold get_git_info
    simp [h, h1, h2, h3]

/-- C6 witness: a failing branch sub-call on a concrete environment. -/
theorem C6_subcall_isolation_witness :
    get_git_info ⟨true, some ⟨1, "main\n"⟩, some ⟨0, "?? x.txt\n"⟩, some ⟨0, "abc123 init\n"⟩⟩ =
      .info "unknown" (changes_of "?? x.txt\n") (pyStrip "abc123 init\n") :=
  (C6_subcall_isolation ⟨true, some ⟨1, "main\n"⟩, some ⟨0, "?? x.txt\n"⟩,
      some ⟨0, "abc123 init\n"⟩⟩ ⟨1, "main\n"⟩ ⟨0, "?? x.txt\n"⟩ ⟨0, "abc123 init\n"⟩
    rfl rfl rfl rfl).1 (by decide) rfl

/-! ### Shared concrete environments for snapshot-level witnesses -/

/-- A project directory whose `os.listdir` raises. -/
def dirMissing : DirState :=
  { listing := .error "[Errno 2] No such file or directory", walk := [], mtime := fun _ => 0 }

/-- A healthy Android project directory. -/
def dirAndroidOk : DirState :=
  { listing := .ok ["Main.kt", "Util.java", "README.md"], walk := [], mtime := fun _ => 0 }

/-- A healthy iOS project directory. -/
def dirIosOk : DirState :=
  { listing := .ok ["App.swift"], walk := [], mtime := fun _ => 0 }

/-- A healthy system environment with one claude process. -/
def sysOk : SysEnv :=
  { ps_result := .ok "user 1 claude\nuser 2 bash", loadavg := .ok (1.0, 1.0, 1.0) }

/-- An absent log directory. -/
def logsAbsent : LogDirState :=
  { dir_exists := false, listing := [], read_file := fun _ => .ok [] }

/-- Environment for the C1 witness: the iOS directory is missing, all other
resources are healthy. -/
def envC1a : Env :=
  { ios_dir := dirMissing, android_dir := dirAndroidOk, ios_git := gitAbsent
    android_git := gitAbsent, sys := sysOk, logs := logsAbsent }

/-- Environment for the C1 witness, symmetric case: the Android directory
is missing, all other resources are healthy. -/
def envC1b : Env :=
  { ios_dir := dirIosOk, android_dir := dirMissing, ios_git := gitAbsent
    android_git := gitAbsent, sys := sysOk, logs := logsAbsent }

/-- C1: failure isolation.  If the iOS project directory cannot be listed
while the Android directory, the process table and the load average are
healthy, the snapshot records an error-only iOS section and fully
populated Android, system and logs sections; symmetrically, a missing
Android directory yields an error-only Android section while the iOS and
remaining sections are populated from their own resources. -/
theorem C1_failure_isolation (env env2 : Env) (now : String)
    (e : String) (afiles : List String) (psout : String) (la : Float × Float × Float)
    (hios : env.ios_dir.listing = .error e)
    (hand : env.android_dir.listing = .ok afiles)
    (hps : env.sys.ps_result = .ok psout)
    (hla : env.sys.loadavg = .ok la)
    (e2 : String) (ifiles : List String)
    (hand2 : env2.android_dir.listing = .error e2)
    (hios2 : env2.ios_dir.listing = .ok ifiles) :
    ((get_project_stats env now).ios =
      { swift_files := none, last_modified := none, git_status := none, error := some e } ∧
     (get_project_stats env now).android.error = none ∧
     (get_project_stats env now).android.kotlin_files =
       some ((afiles.filter (fun f => endsWithPy f ".kt")).length) ∧
     (get_project_stats env now).android.java_files =
       some ((afiles.filter (fun f => endsWithPy f ".java")).length) ∧
     (get_project_stats env now).android.last_modified =
       some (get_last_modified env.android_dir.walk env.android_dir.mtime
         ANDROID_DIR [".kt", ".java"]) ∧
     (get_project_stats env now).android.git_status = some (get_git_info env.android_git) ∧
     (get_project_stats env now).system =
       { claude_processes := some (((splitOnNl psout.data).filter
           (fun line => containsSub "claude".data (lowerChars line))).length)
         load_avg := some la, error := none } ∧
     (get_project_stats env now).terminal_logs = get_terminal_logs env.logs) ∧
    ((get_project_stats env2 now).android =
      { kotlin_files := none, java_files := none, last_modified := none
        git_status := none, error := some e2 } ∧
     (get_project_stats env2 now).ios.error = none ∧
     (get_project_stats env2 now).ios.swift_files =
       some ((ifiles.filter (fun f => endsWithPy f ".swift")).length) ∧
     (get_project_stats env2 now).system = build_system env2.sys ∧
     (get_project_stats env2 now).terminal_logs = get_terminal_logs env2.logs) := by
  unfold get_project_stats build_ios build_android build_system
  simp [hios, hand, hps, hla, hand2, hios2]

/-- C1 witness: both directions on `envC1a`/`envC1b`. -/
theorem C1_failure_isolation_witness :
    (get_project_stats envC1a "2026-01-01T00:00:00").ios =
      { swift_files := none, last_modified := none, git_status := none
        error := some "[Errno 2] No such file or directory" } ∧
    (get_project_stats envC1a "2026-01-01T00:00:00").android.error = none ∧
    (get_project_stats envC1b "2026-01-01T00:00:00").android =
      { kotlin_files := none, java_files := none, last_modified := none
        git_status := none, error := some "[Errno 2] No such file or directory" } ∧
    (get_project_stats envC1b "2026-01-01T00:00:00").ios.error = none :=
  have h := C1_failure_isolation envC1a envC1b "2026-01-01T00:00:00"
    "[Errno 2] No such file or directory" ["Main.kt", "Util.java", "README.md"]
    "user 1 claude\nuser 2 bash" (1.0, 1.0, 1.0) rfl rfl rfl rfl
    "[Errno 2] No such file or directory" ["App.swift"] rfl rfl
  ⟨h.1.1, h.1.2.1, h.2.1, h.2.2.1⟩

/-- C7: determinism.  Two `/api/stats` aggregations over the same
environment (unchanged filesystem, version-control state, process table
and log directory) yield snapshots identical in every section, differing
only in the timestamp they were stamped with. -/
theorem C7_idempotence (env : Env) (t1 t2 : String) :
    (serve_stats env t1).ios = (serve_stats env t2).ios ∧
    (serve_stats env t1).android = (serve_stats env t2).android ∧
    (serve_stats env t1).system = (serve_stats env t2).system ∧
    (serve_stats env t1).terminal_logs = (serve_stats env t2).terminal_logs ∧
    (serve_stats env t1).timestamp = t1 ∧ (serve_stats env t2).timestamp = t2 :=
  ⟨rfl, rfl, rfl, rfl, rfl, rfl⟩

/-- System environment for C8: `ps aux` succeeds, `os.getloadavg` raises. -/
def sysC8 : SysEnv :=
  { ps_result := .ok "/usr/bin/claude --work\nroot 1 init"
    loadavg := .error "loadavg unavailable" }

/-- Environment for the C8 counterexample. -/
def envC8 : Env :=
  { ios_dir := dirIosOk, android_dir := dirAndroidOk, ios_git := gitAbsent
    android_git := gitAbsent, sys := sysC8, logs := logsAbsent }

/-- C8 counterexample: when the process query succeeds and the load-average
query then raises, the served system section contains the populated
`claude_processes` data field next to the `error` field — a section with
both data and an error, contrary to the claim. -/
theorem C8_mixed_system_counterexample :
    (serve_stats envC8 "t").system.claude_processes = some 1 ∧
    (serve_stats envC8 "t").system.error = some "loadavg unavailable" := by
  exact ⟨rfl, rfl⟩

/-- C8 amended: the ios and android sections are exclusive — an error
leaves every data key unassigned and no error means every data key is
populated; the system section is exclusive except that a load-average
failure after a successful process query leaves `claude_processes`
populated next to the error (an error always leaves `load_avg`
unassigned, and no error means both system keys are populated). -/
theorem C8_section_exclusivity (env : Env) (now : String) :
    ((serve_stats env now).ios.error.isSome = true →
      (serve_stats env now).ios.swift_files = none ∧
      (serve_stats env now).ios.last_modified = none ∧
      (serve_stats env now).ios.git_status = none) ∧
    ((serve_stats env now).ios.error = none →
      (serve_stats env now).ios.swift_files.isSome = true ∧
      (serve_stats env now).ios.last_modified.isSome = true ∧
      (serve_stats env now).ios.git_status.isSome = true) ∧
    ((serve_stats env now).android.error.isSome = true →
      (serve_stats env now).android.kotlin_files = none ∧
      (serve_stats env now).android.java_files = none ∧
      (serve_stats env now).android.last_modified = none ∧
      (serve_stats env now).android.git_status = none) ∧
    ((serve_stats env now).android.error = none →
      (serve_stats env now).android.kotlin_files.isSome = true ∧
      (serve_stats env now).android.java_files.isSome = true ∧
      (serve_stats env now).android.last_modified.isSome = true ∧
      (serve_stats env now).android.git_status.isSome = true) ∧
    ((serve_stats env now).system.error.isSome = true →
      (serve_stats env now).system.load_avg = none) ∧
    ((serve_stats env now).system.error = none →
      (serve_stats env now).system.claude_processes.isSome = true ∧
      (serve_stats env now).system.load_avg.isSome = true) := by
  refine ⟨?_, ?_, ?_, ?_, ?_, ?_⟩ <;>
    unfold serve_stats get_project_stats build_ios build_android build_system
  · rcases env.ios_dir.listing with e | files <;> simp
  · rcases env.ios_dir.listing with e | files <;> simp
  · rcases env.android_dir.listing with e | files <;> simp
  · rcases env.android_dir.listing with e | files <;> simp
  · rcases env.sys.ps_result with e | out
    · simp
    · rcases env.sys.loadavg with e | la <;> simp
  · rcases env.sys.ps_result with e | out
    · simp
    · rcases env.sys.loadavg with e | la <;> simp

/-- C8 witness: on `envC8` the failed load-average query leaves `load_avg`
unassigned, and the healthy iOS section is populated. -/
theorem C8_section_exclusivity_witness :
    (serve_stats envC8 "t").system.load_avg = none ∧
    (serve_stats envC8 "t").ios.swift_files.isSome = true :=
  have h := C8_section_exclusivity envC8 "t"
  ⟨h.2.2.2.2.1 (by decide), (h.2.1 (by decide)).1⟩

/-- C9: refinement.  Over one fixed state of the log directory, the body
served by `GET /api/terminal` equals the `terminal_logs` field of the
snapshot served by `GET /api/stats`: both are one `get_terminal_logs` run
over the shared log directory. -/
theorem C9_terminal_refinement (env : Env) (now : String) :
    serve_terminal_logs env = (serve_stats env now).terminal_logs := rfl

/-- C10: when the configured log directory does not exist,
`get_terminal_logs` returns the empty mapping, so the snapshot's
`terminal_logs` field and the `/api/terminal` response body are both empty
— no error value and no raised exception. -/
theorem C10_missing_log_dir (env : Env) (now : String)
    (h : env.logs.dir_exists = false) :
    get_terminal_logs env.logs = [] ∧
    (serve_stats env now).terminal_logs = [] ∧
    serve_terminal_logs env = [] := by
  have h1 : get_terminal_logs env.logs = [] := by
    unfold get_terminal_logs
    simp [h]
  exact ⟨h1, h1, h1⟩

/-- C10 witness: the absent log directory of `envC1a`. -/
theorem C10_missing_log_dir_witness :
    get_terminal_logs envC1a.logs = [] ∧
    (serve_stats envC1a "t").terminal_logs = [] ∧
    serve_terminal_logs envC1a = [] :=
  C10_missing_log_dir envC1a "t" rfl

end SSHDashboard
